import Mathlib

/-!
Verification development for the autotrader backend's trading core:
shallow embeddings of `src/services/risk_manager.py`,
`src/services/trade_executor.py` and `src/services/data_ingestion.py`,
followed by theorems about them.

Numeric values (Python floats) are modelled as rationals, so arithmetic
identities hold exactly; Python exceptions are modelled with an explicit
error type, and functions that can raise return `Except`.  Calls into
external collaborators (database, HTTP client, Redis) are modelled by
oracle parameters carrying the collaborator's reply, and by explicit
effect lists where the claim is about what gets written or published.
-/

namespace AutoTrader

/-- Python exception kinds relevant to the embedded code. -/
inductive PyErr where
  | attributeError
  | keyError
  | valueError
  | zeroDivisionError
  | dbError
  | httpError
deriving DecidableEq, Repr

/-- The `RISK_LIMITS` dictionary built in `src/core/config.py`
(`max_position_size`, `max_daily_trades`, `stop_loss_percentage`,
`max_drawdown`). -/
structure RiskLimits where
  max_position_size : ℚ
  max_daily_trades : ℕ
  stop_loss_percentage : ℚ
  max_drawdown : ℚ
deriving DecidableEq, Repr

/-- The default risk limits from `src/core/config.py`:
MAX_POSITION_SIZE = 1000.0, MAX_DAILY_TRADES = 10,
STOP_LOSS_PERCENTAGE = 0.02, MAX_DRAWDOWN = 0.05. -/
def defaultRiskLimits : RiskLimits :=
  { max_position_size := 1000
    max_daily_trades := 10
    stop_loss_percentage := 1/50
    max_drawdown := 1/20 }

/-- Round a rational to the nearest integer, ties to the even integer.
This is the rounding performed by Python's
`Decimal.quantize` under its default `ROUND_HALF_EVEN` mode. -/
def roundHalfEven (x : ℚ) : ℤ :=
  let n := ⌊x⌋
  let f := x - (n : ℚ)
  if f < 1/2 then n
  else if 1/2 < f then n + 1
  else if Even n then n else n + 1

/-- Quantization to 5 decimal places with round-half-even, the effect of
`Decimal(str(position_size)).quantize(Decimal("0.00001"))` in
`RiskManager.calculate_position_size`. -/
def quantize5 (x : ℚ) : ℚ :=
  (roundHalfEven (x * 100000) : ℚ) / 100000

/-- A trade-signal dictionary as consumed by `RiskManager`.
`position_size` is `Option` because `_validate_position_size` reads
`trade_signal["position_size"]`, which raises `KeyError` when absent. -/
structure TradeSignal where
  symbol : String
  entry_price : ℚ
  stop_loss : ℚ
  take_profit : ℚ
  position_size : Option ℚ
deriving DecidableEq, Repr

/-- Embedding of `RiskManager.calculate_position_size`
(`src/services/risk_manager.py`, lines 55-74):
`risk_per_trade = account_balance * stop_loss_percentage`;
`risk_per_unit = abs(entry_price - stop_loss) / entry_price`
(ZeroDivisionError when `entry_price = 0`);
`position_size = risk_per_trade / risk_per_unit`
(ZeroDivisionError when `risk_per_unit = 0`, i.e. `stop_loss = entry_price`);
capped by `min` at `max_position_size` and then quantized to 5 decimal
places half-even.  The `except` clause re-raises, so errors propagate as
`Except.error`. -/
def calculate_position_size (lim : RiskLimits) (sig : TradeSignal) (bal : ℚ) :
    Except PyErr ℚ :=
  let risk_per_trade := bal * lim.stop_loss_percentage
  let price_diff := |sig.entry_price - sig.stop_loss|
  if sig.entry_price = 0 then .error .zeroDivisionError
  else
    let risk_per_unit := price_diff / sig.entry_price
    if risk_per_unit = 0 then .error .zeroDivisionError
    else .ok (quantize5 (min (risk_per_trade / risk_per_unit) lim.max_position_size))

/-- The scenario-A signal from the spec: BTC-USD long, entry 50000,
stop 49000, take-profit 52000. -/
def scenarioASignal : TradeSignal :=
  { symbol := "BTC-USD"
    entry_price := 50000
    stop_loss := 49000
    take_profit := 52000
    position_size := none }

/-- One open-position entry of `RiskManager.positions`
(symbol, size, price, direction as stored by `_load_active_positions`). -/
structure PositionEntry where
  symbol : String
  size : ℚ
  price : ℚ
  direction : String
deriving DecidableEq, Repr

/-- The in-memory state of a `RiskManager` instance: configured limits,
the `daily_trades` counter map (keys `"symbol_date"`), and the
`positions` index. -/
structure RMState where
  risk_limits : RiskLimits
  daily_trades : List (String × ℕ)
  positions : List PositionEntry
deriving DecidableEq, Repr

/-- Python `self.daily_trades.get(key, 0)` over the association-list model
of the dictionary. -/
def lookupCount (m : List (String × ℕ)) (k : String) : ℕ :=
  ((m.find? (fun p => p.1 == k)).map Prod.snd).getD 0

/-- Current exposure as summed in `_validate_position_size` and
`_calculate_risk_metrics`: `sum(pos["size"] * pos["price"])` over the
position index. -/
def current_exposure (ps : List PositionEntry) : ℚ :=
  (ps.map (fun p => p.size * p.price)).sum

/-- Embedding of `RiskManager._validate_position_size`
(`src/services/risk_manager.py`, lines 103-121).  Reading
`trade_signal["position_size"]` raises `KeyError` when the key is absent;
the method's own handler catches it and returns `False`. -/
def validate_position_size (rm : RMState) (sig : TradeSignal) : Bool :=
  match sig.position_size with
  | none => false
  | some ps =>
    if current_exposure rm.positions + ps * sig.entry_price >
        rm.risk_limits.max_position_size then false
    else true

/-- Embedding of `RiskManager._validate_stop_loss`
(`src/services/risk_manager.py`, lines 123-136).  Division by a zero
`entry_price` raises `ZeroDivisionError`, caught by the method's handler,
which returns `False`. -/
def validate_stop_loss (rm : RMState) (sig : TradeSignal) : Bool :=
  if sig.entry_price = 0 then false
  else if |sig.entry_price - sig.stop_loss| / sig.entry_price >
      rm.risk_limits.stop_loss_percentage then false
  else true

/-- Embedding of the call `self._check_drawdown_limit()` made at
`src/services/risk_manager.py` line 42 (and lines 98-100).  The class
`RiskManager` defines no method or attribute `_check_drawdown_limit`
anywhere in the repository, so the attribute lookup raises
`AttributeError`. -/
def check_drawdown_limit : Except PyErr Bool := .error .attributeError

/-- Embedding of `RiskManager.validate_trade`
(`src/services/risk_manager.py`, lines 26-53): the daily-trade-count
check, then `_validate_position_size`, then the `_check_drawdown_limit`
call (whose `AttributeError` is swallowed by the method's catch-all
handler, which returns `False`), then `_validate_stop_loss`.  `today` is
the ISO date string from `datetime.utcnow().date()`. -/
def validate_trade (rm : RMState) (today : String) (sig : TradeSignal) : Bool :=
  if lookupCount rm.daily_trades (sig.symbol ++ "_" ++ today) ≥
      rm.risk_limits.max_daily_trades then false
  else if ¬ validate_position_size rm sig then false
  else
    match check_drawdown_limit with
    | .error _ => false
    | .ok dd_ok =>
      if ¬ dd_ok then false
      else if ¬ validate_stop_loss rm sig then false
      else true

/-- The trade-status record returned by `RiskManager.check_risk_limits`
per the spec: three booleans. -/
structure RiskLimitStatus where
  daily_trades_limit : Bool
  drawdown_limit : Bool
  exposure_limit : Bool
deriving DecidableEq, Repr

/-- Embedding of `RiskManager.check_risk_limits`
(`src/services/risk_manager.py`, lines 95-101).  Its body first evaluates
`self._check_daily_trades_limit()`; neither `_check_daily_trades_limit`
nor `_check_drawdown_limit` nor `_check_exposure_limit` is defined
anywhere in the repository, so the first attribute lookup raises
`AttributeError`, and `check_risk_limits` has no handler, so the
exception propagates to the caller. -/
def check_risk_limits (rm : RMState) : Except PyErr RiskLimitStatus :=
  .error .attributeError

/-- One iteration of the drawdown loop body in
`RiskManager._calculate_risk_metrics`
(`src/services/risk_manager.py`, lines 177-182):
`cumulative_pnl += trade.pnl; peak = max(peak, cumulative_pnl);
drawdown = peak - cumulative_pnl; max_drawdown = max(max_drawdown, drawdown)`.
The state triple is `(cumulative_pnl, peak, max_drawdown)`. -/
def ddStep (st : ℚ × ℚ × ℚ) (p : ℚ) : ℚ × ℚ × ℚ :=
  let cumulative := st.1 + p
  let peak := max st.2.1 cumulative
  let drawdown := peak - cumulative
  (cumulative, peak, max st.2.2 drawdown)

/-- The loop body including the guard `if trade.pnl:` — a trade whose
`pnl` is `None` or exactly `0.0` is falsy in Python and skipped. -/
def riskMetricsStep (st : ℚ × ℚ × ℚ) (pnl : Option ℚ) : ℚ × ℚ × ℚ :=
  match pnl with
  | none => st
  | some p => if p = 0 then st else ddStep st p

/-- The drawdown part of `RiskManager._calculate_risk_metrics`
(`src/services/risk_manager.py`, lines 162-196): fold the loop body over
the `pnl` column of the queried trades (in the order the query returns
them), starting from `cumulative_pnl = 0`, `peak = 0`, `max_drawdown = 0`.
The exposure and position-count parts of the stored metrics record reuse
`current_exposure` and the position index and are not recomputed here. -/
def calculate_risk_metrics_drawdown (pnls : List (Option ℚ)) : ℚ × ℚ × ℚ :=
  pnls.foldl riskMetricsStep (0, 0, 0)

/-- The `max_drawdown` component stored into the `risk_metrics` record. -/
def max_drawdown (pnls : List (Option ℚ)) : ℚ :=
  (calculate_risk_metrics_drawdown pnls).2.2

/-- The same fold restricted to the effective (non-skipped) PnL values. -/
def ddFold (l : List ℚ) : ℚ × ℚ × ℚ := l.foldl ddStep (0, 0, 0)

/-- Spec-side closed form: the running peak after a PnL sequence is the
maximum cumulative PnL over all initial segments (0 included, via the
empty segment). -/
def peakOfInits (l : List ℚ) : ℚ :=
  (l.inits.map List.sum).foldl max 0

/-- Spec-side closed form of the maximum drawdown: the maximum over all
initial segments of (running peak of the segment minus cumulative PnL of
the segment). -/
def specMaxDrawdown (l : List ℚ) : ℚ :=
  (l.inits.map (fun p => peakOfInits p - p.sum)).foldl max 0

/-- A Python value fed to `float(...)`: either a numeric value or one on
which the conversion raises (`ValueError`/`TypeError`), e.g. a
non-numeric string or `None`. -/
inductive PyVal where
  | num (q : ℚ)
  | nonnum
deriving DecidableEq, Repr

/-- Python `float(v)`. -/
def pyFloat : PyVal → Except PyErr ℚ
  | .num q => .ok q
  | .nonnum => .error .valueError

/-- The `TradeDirection` enum of `src/db/models/trading.py`
(members LONG and SHORT with values "long" and "short"). -/
inductive TradeDirection where
  | long
  | short
deriving DecidableEq, Repr

/-- The comparison `trade.direction == "LONG"` performed in
`TradeExecutor._calculate_pnl` (`src/services/trade_executor.py`,
line 261).  `trade.direction` is a `TradeDirection` enum member (the
`trades.direction` column is `Enum(TradeDirection)`), and in Python an
`enum.Enum` member never compares equal to a string, so this test is
`False` for both directions (the enum values are the lowercase "long"
and "short" in any case, never "LONG"). -/
def direction_eq_LONG (d : TradeDirection) : Bool :=
  match d with
  | .long => false
  | .short => false

/-- A row of the `trades` table as used by `TradeExecutor`
(`src/db/models/trading.py`): the fields read and written by
`update_trade_status` and `_calculate_pnl`.  `entry_price` and
`quantity` are `PyVal` because `_calculate_pnl` passes them through
`float(...)` inside a try block. -/
structure TradeRec where
  direction : TradeDirection
  entry_price : PyVal
  quantity : PyVal
  status : String
  exit_time : Option ℕ
  exit_price : Option ℚ
  pnl : Option ℚ
deriving DecidableEq, Repr

/-- Embedding of `TradeExecutor._calculate_pnl`
(`src/services/trade_executor.py`, lines 255-268):
`entry_value = float(entry_price) * float(quantity)`,
`exit_value = float(exit_price) * float(quantity)`, then
`exit_value - entry_value` if `direction == "LONG"` else
`entry_value - exit_value`; any exception in the body is caught and
`0.0` is returned. -/
def calculate_pnl (t : TradeRec) (exit_px : PyVal) : ℚ :=
  match pyFloat t.entry_price, pyFloat t.quantity, pyFloat exit_px with
  | .ok e, .ok q, .ok x =>
    let entry_value := e * q
    let exit_value := x * q
    if direction_eq_LONG t.direction then exit_value - entry_value
    else entry_value - exit_value
  | _, _, _ => 0

/-- A status dictionary passed to `TradeExecutor.update_trade_status`.
`price` is `Option` because `status["price"]` raises `KeyError` when
absent. -/
structure StatusMsg where
  status : String
  price : Option ℚ
deriving DecidableEq, Repr

/-- Embedding of the fetch
`trade = await db.query(Trade).filter(Trade.id == trade_id).first()` at
`src/services/trade_executor.py` line 136.  `get_db`
(`src/db/session.py`) yields a SQLAlchemy `AsyncSession`, and
`AsyncSession` does not expose the legacy `query` API, so the attribute
lookup `db.query` raises `AttributeError` before the trade id is even
consulted. -/
def db_query_fetch_trade : Except PyErr (Option TradeRec) :=
  .error .attributeError

/-- The mutation block of `TradeExecutor.update_trade_status`
(`src/services/trade_executor.py`, lines 137-144), as written for the
case where the fetch found the trade: set `trade.status` from the
message; when the reported status is "FILLED", additionally set
`trade.exit_time = utcnow()`, `trade.exit_price = status["price"]` and
`trade.pnl = self._calculate_pnl(trade, status["price"])`, then commit.
With the actual session this block is unreachable (the fetch raises
first); it is embedded so the whole method body is represented.
`now` stands for `datetime.utcnow()`. -/
def update_trade_fields (t : TradeRec) (msg : StatusMsg) (now : ℕ) :
    Except PyErr TradeRec :=
  let t1 := { t with status := msg.status }
  if msg.status = "FILLED" then
    match msg.price with
    | none => .error .keyError
    | some px =>
      .ok { t1 with
              exit_time := some now
              exit_price := some px
              pnl := some (calculate_pnl t1 (.num px)) }
  else .ok t1

/-- Embedding of `TradeExecutor.update_trade_status`
(`src/services/trade_executor.py`, lines 132-151): fetch the trade by
id, then, if one was found, run the mutation block and commit (the
subsequent `update_risk_metrics` call is likewise unreachable).  The
method's `except` handler logs and re-raises, so the fetch's
`AttributeError` propagates to the caller; no trade row is ever
mutated. -/
def update_trade_status (trade_id : String) (msg : StatusMsg) (now : ℕ) :
    Except PyErr (Option TradeRec) :=
  match db_query_fetch_trade with
  | .error e => .error e
  | .ok none => .ok none
  | .ok (some t) => Except.map some (update_trade_fields t msg now)

/-- The scenario-C trade: a long position entered at 50000 for
quantity 0.1, still open (no exit fields), pending fill. -/
def scenarioCTrade : TradeRec :=
  { direction := .long
    entry_price := .num 50000
    quantity := .num (1/10)
    status := "pending"
    exit_time := none
    exit_price := none
    pnl := none }

/-- A trade whose `entry_price` is not numerically convertible, used to
exercise the error fallback of `_calculate_pnl`. -/
def badEntryTrade : TradeRec :=
  { direction := .long
    entry_price := .nonnum
    quantity := .num (1/10)
    status := "filled"
    exit_time := none
    exit_price := none
    pnl := none }

/-- An order dictionary as returned by `_place_order` and stored in
`TradeExecutor.active_orders`. -/
structure Order where
  order_id : String
  symbol : String
  side : String
  price : ℚ
  quantity : ℚ
  status : String
deriving DecidableEq, Repr

/-- The `active_orders` dictionary, modelled as an association list from
order id to order. -/
abbrev ActiveOrders := List (String × Order)

/-- Python dictionary assignment
`self.active_orders[order["order_id"]] = order`. -/
def setOrder : ActiveOrders → String → Order → ActiveOrders
  | [], k, o => [(k, o)]
  | (k', o') :: rest, k, o =>
    if k' = k then (k, o) :: rest else (k', o') :: setOrder rest k o

/-- The outcomes of the collaborator calls made by
`TradeExecutor.execute_trade`, taken as oracle parameters so that a run
of the method is a pure function of them:
`validate` is the boolean from `risk_manager.validate_trade` (that call
catches internally and cannot raise); `balance` is
`_get_account_balance(...)` — note this method is itself undefined on
`TradeExecutor`, so in the actual code this step always raises
`AttributeError`, one instance of the `Except.error` case; `size` is
`risk_manager.calculate_position_size` (re-raises on error); `place` is
`_place_order` (returns `None` on any failure, never raises); `store` is
`_store_trade` (re-raises on database error); `metrics` is
`risk_manager.update_risk_metrics` (re-raises on error). -/
structure ExecEnv where
  validate : Bool
  balance : Except PyErr ℚ
  size : Except PyErr ℚ
  place : Option Order
  store : Except PyErr Unit
  metrics : Except PyErr Unit
deriving Repr

/-- Embedding of `TradeExecutor.execute_trade`
(`src/services/trade_executor.py`, lines 77-108) as a function of the
collaborator outcomes and the `active_orders` index.  The whole body is
wrapped in `try/except` returning `None` on any exception, and when
validation fails or order placement returns `None` the method returns
`None`.  Crucially, a successfully placed order is registered in
`active_orders` (line 96) BEFORE `_store_trade` (line 99) and
`update_risk_metrics` (line 102) run, and the catch-all handler does not
remove it. -/
def execute_trade (env : ExecEnv) (acts : ActiveOrders) :
    Option Order × ActiveOrders :=
  if ¬ env.validate then (none, acts)
  else
    match env.balance with
    | .error _ => (none, acts)
    | .ok _ =>
      match env.size with
      | .error _ => (none, acts)
      | .ok _ =>
        match env.place with
        | none => (none, acts)
        | some o =>
          let acts1 := setOrder acts o.order_id o
          match env.store with
          | .error _ => (none, acts1)
          | .ok _ =>
            match env.metrics with
            | .error _ => (none, acts1)
            | .ok _ => (some o, acts1)

/-- The early-failure condition of `execute_trade`: risk rejection,
balance-fetch error, sizing error, or order placement returning
`None`. -/
def failsBeforeRegistration (env : ExecEnv) : Prop :=
  env.validate = false ∨ (∃ e, env.balance = .error e) ∨
    (∃ e, env.size = .error e) ∨ env.place = none

/-- A concrete environment in which validation, balance, sizing and
placement succeed and persisting the trade fails. -/
def storeFailEnv : ExecEnv :=
  { validate := true
    balance := .ok 10000
    size := .ok 200
    place := some ⟨"ord1", "BTC-USD", "long", 50000, 1/10, "NEW"⟩
    store := .error .dbError
    metrics := .ok () }

/-- The result of one pass of the `for` loop inside
`TradeExecutor.manage_open_positions`: which orders had their status
polled this cycle, and whether the cycle ended in the `except` handler
(after which the loop sleeps 5 s and starts the next cycle). -/
structure CycleResult where
  polled : List String
  caught : Bool
deriving DecidableEq, Repr

/-- Whether the loop body raises for a polled status.
`_check_order_status` itself never raises (it catches and returns
`{"status": "UNKNOWN"}` on any error), so the status value is an oracle;
`none` models a 200-response JSON without a "status" key, on which
`status["status"]` raises `KeyError`.  On "FILLED" the body calls
`self._update_position`, and on "CANCELLED" `self._cleanup_order`;
neither method is defined anywhere on `TradeExecutor`, so both raise
`AttributeError`. -/
def handlerRaises (st : Option String) : Bool :=
  match st with
  | none => true
  | some s => s == "FILLED" || s == "CANCELLED"

/-- Embedding of one cycle of `TradeExecutor.manage_open_positions`
(`src/services/trade_executor.py`, lines 110-130): iterate over
`list(self.active_orders.items())`, polling each order's status; the
single `try/except` wraps the WHOLE `for` loop, so the first exception
raised while handling one order skips every remaining order for this
cycle and is caught by the handler (the `while True` loop then retries
everything after a 5 s sleep). -/
def manage_open_positions_cycle (statusOf : String → Option String) :
    ActiveOrders → CycleResult
  | [] => ⟨[], false⟩
  | (oid, _) :: rest =>
    if handlerRaises (statusOf oid) then ⟨[oid], true⟩
    else
      let r := manage_open_positions_cycle statusOf rest
      ⟨oid :: r.polled, r.caught⟩

/-- A concrete tracked order. -/
def fixtureOrder1 : Order := ⟨"ord1", "BTC-USD", "long", 50000, 1/10, "NEW"⟩

/-- A second concrete tracked order. -/
def fixtureOrder2 : Order := ⟨"ord2", "ETH-USD", "long", 2000, 1, "NEW"⟩

/-- Two tracked orders used as a concrete reconciliation fixture. -/
def fixtureOrders : ActiveOrders :=
  [("ord1", fixtureOrder1), ("ord2", fixtureOrder2)]

/-- A status oracle under which the first fixture order is reported
filled and the second would be reported still working. -/
def fixtureStatus (oid : String) : Option String :=
  if oid = "ord1" then some "FILLED" else some "NEW"

/-- A raw market-data message: the union of the dictionary keys read by
the two normalizers, each `Option` because a missing key raises
`KeyError` (caught by the normalizer, which returns `None`).
`s`/`T`/`o`/`h`/`l`/`c`/`v` are the Binance kline keys;
`instrument_name`/`timestamp`/`opn`/`high`/`low`/`close`/`volume` are
the Deribit keys (`opn` stands for the "open" key, which is a reserved
word in Lean). -/
structure RawMsg where
  s : Option String := none
  T : Option ℚ := none
  o : Option ℚ := none
  h : Option ℚ := none
  l : Option ℚ := none
  c : Option ℚ := none
  v : Option ℚ := none
  instrument_name : Option String := none
  timestamp : Option ℚ := none
  opn : Option ℚ := none
  high : Option ℚ := none
  low : Option ℚ := none
  close : Option ℚ := none
  volume : Option ℚ := none
deriving DecidableEq, Repr

/-- The canonical normalized market-data record produced by the
normalizers (exchange tag, symbol, timestamp in seconds, OHLCV). -/
structure NormalizedPoint where
  symbol : String
  exchange : String
  ts : ℚ
  opn : ℚ
  high : ℚ
  low : ℚ
  close : ℚ
  volume : ℚ
deriving DecidableEq, Repr

/-- Embedding of `DataIngestionService.normalize_binance_data`
(`src/services/data_ingestion.py`, lines 176-190): map the Binance kline
keys to the canonical shape, dividing the millisecond timestamp by 1000;
a missing key raises `KeyError`, caught to return `None`. -/
def normalize_binance_data (d : RawMsg) : Option NormalizedPoint :=
  match d.s, d.T, d.o, d.h, d.l, d.c, d.v with
  | some sym, some t, some o, some h, some l, some c, some v =>
    some ⟨sym, "binance", t / 1000, o, h, l, c, v⟩
  | _, _, _, _, _, _, _ => none

/-- Embedding of `DataIngestionService.normalize_deribit_data`
(`src/services/data_ingestion.py`, lines 192-206). -/
def normalize_deribit_data (d : RawMsg) : Option NormalizedPoint :=
  match d.instrument_name, d.timestamp, d.opn, d.high, d.low, d.close, d.volume with
  | some sym, some t, some o, some h, some l, some c, some v =>
    some ⟨sym, "deribit", t / 1000, o, h, l, c, v⟩
  | _, _, _, _, _, _, _ => none

/-- Embedding of `DataIngestionService.normalize_market_data`
(`src/services/data_ingestion.py`, lines 168-174): dispatch on the
exchange identifier; any exchange other than "binance" and "deribit" —
including "mock" — normalizes to `None`. -/
def normalize_market_data (exchange : String) (d : RawMsg) :
    Option NormalizedPoint :=
  if exchange = "binance" then normalize_binance_data d
  else if exchange = "deribit" then normalize_deribit_data d
  else none

/-- Observable side effects of the ingestion pipeline on its
collaborators: a Redis cache write with TTL, a pub/sub publish on a
topic, and a durable-store append. -/
inductive IngestEffect where
  | cacheSet (key : String) (point : NormalizedPoint) (ttl : ℕ)
  | publish (topic : String) (exchange : String) (pair : String)
      (point : NormalizedPoint)
  | store (point : NormalizedPoint)
deriving DecidableEq, Repr

/-- Embedding of `DataIngestionService.cache_data`
(`src/services/data_ingestion.py`, lines 149-159): a cache write under
`market_data:exchange:pair` with a 15 s TTL, then a publish on the
`market_updates` topic. -/
def cache_data (exchange pair : String) (d : NormalizedPoint) :
    List IngestEffect :=
  [.cacheSet ("market_data:" ++ exchange ++ ":" ++ pair) d 15,
   .publish "market_updates" exchange pair d]

/-- Embedding of `DataIngestionService.process_market_data`
(`src/services/data_ingestion.py`, lines 132-147): parse the message
(the mock stream passes `json.dumps` of the dict it built, so parsing
returns the same dict), normalize it for the given exchange, and, only
if normalization produced a record, cache it, publish it and store it;
otherwise nothing happens. -/
def process_market_data (exchange pair : String) (msg : RawMsg) :
    List IngestEffect :=
  match normalize_market_data exchange msg with
  | some nd => cache_data exchange pair nd ++ [.store nd]
  | none => []

/-- Embedding of `DataIngestionService._generate_mock_data`
(`src/services/data_ingestion.py`, lines 99-111): a Binance-format dict
with base price 50000 for pairs containing "BTC" and 2000 otherwise
(the `splitOn` test models Python's `"BTC" in trading_pair`);
`nowMs` stands for the millisecond timestamp, and `ro rh rl rc rv` for
the sampled `random.uniform` values. -/
def generate_mock_data (pair : String) (nowMs ro rh rl rc rv : ℚ) : RawMsg :=
  let base : ℚ := if (pair.splitOn "BTC").length ≠ 1 then 50000 else 2000
  { s := some pair
    T := some nowMs
    o := some (base * (1 + ro))
    h := some (base * (1 + rh))
    l := some (base * (1 - rl))
    c := some (base * (1 + rc))
    v := some rv }

/-- Embedding of one iteration of
`DataIngestionService._start_mock_data_stream`
(`src/services/data_ingestion.py`, lines 87-97): for every configured
trading pair, generate a mock message and run it through
`process_market_data` with exchange identifier "mock"; the iteration's
observable output is the concatenation of the per-pair effects. -/
def start_mock_data_stream_iteration (pairs : List String)
    (gen : String → RawMsg) : List IngestEffect :=
  (pairs.map (fun p => process_market_data "mock" p (gen p))).flatten

end AutoTrader

namespace AutoTrader

/-! ## Theorems -/

/-- C2: for every signal with `entry_price > 0` and
`stop_loss ≠ entry_price` and every account balance,
`calculate_position_size` returns
`min(balance * stop_loss_percentage / (|entry - stop| / entry), max_position_size)`
rounded half-even to 5 decimal places; and in the scenario with
entry 50000, stop 49000, balance 10000 and stop-loss percentage 0.02 the
raw size is 10000, capped at `max_position_size`. -/
theorem calculate_position_size_spec (lim : RiskLimits) (sig : TradeSignal)
    (bal : ℚ) (he : 0 < sig.entry_price) (hs : sig.stop_loss ≠ sig.entry_price) :
    calculate_position_size lim sig bal =
      .ok (quantize5 (min
        (bal * lim.stop_loss_percentage /
          (|sig.entry_price - sig.stop_loss| / sig.entry_price))
        lim.max_position_size)) ∧
    ∀ mps mdd : ℚ, ∀ ndt : ℕ,
      calculate_position_size ⟨mps, ndt, 1/50, mdd⟩ scenarioASignal 10000 =
        .ok (quantize5 (min 10000 mps)) := by
  constructor
  · unfold calculate_position_size
    rw [if_neg he.ne', if_neg]
    rw [div_eq_zero_iff]
    push_neg
    exact ⟨abs_ne_zero.mpr (sub_ne_zero.mpr (fun h => hs h.symm)), he.ne'⟩
  · intro mps mdd ndt
    unfold calculate_position_size scenarioASignal
    norm_num

/-- Witness for C2 at the concrete scenario-A input with the default
configuration limits. -/
theorem calculate_position_size_spec_witness :
    calculate_position_size defaultRiskLimits scenarioASignal 10000 =
      .ok (quantize5 (min
        (10000 * defaultRiskLimits.stop_loss_percentage /
          (|scenarioASignal.entry_price - scenarioASignal.stop_loss| /
            scenarioASignal.entry_price))
        defaultRiskLimits.max_position_size)) :=
  (calculate_position_size_spec defaultRiskLimits scenarioASignal 10000
    (by norm_num [scenarioASignal]) (by norm_num [scenarioASignal])).1

/-- C1: `validate_trade` can never return `true`: the
`_check_drawdown_limit` helper it calls is undefined on `RiskManager`, so
every invocation that survives the first two checks raises
`AttributeError`, which the catch-all handler turns into `False`.  In
particular it returns `false` for signals that pass the daily-count,
exposure and stop-loss checks, where the spec requires `true`. -/
theorem validate_trade_always_false (rm : RMState) (today : String)
    (sig : TradeSignal) : validate_trade rm today sig = false := by
  unfold validate_trade check_drawdown_limit
  split
  · rfl
  · split <;> rfl

/-- C7: `check_risk_limits` never returns the three-boolean record; it
raises `AttributeError` on every call because the three helper methods it
invokes are undefined on `RiskManager`. -/
theorem check_risk_limits_raises (rm : RMState) :
    check_risk_limits rm = .error .attributeError ∧
    ∀ st : RiskLimitStatus, check_risk_limits rm ≠ .ok st := by
  exact ⟨rfl, fun st h => by simp [check_risk_limits] at h⟩

theorem inits_concat (l : List ℚ) (a : ℚ) :
    (l ++ [a]).inits = l.inits ++ [l ++ [a]] := by
  rw [List.inits_append]
  simp

theorem peakOfInits_concat (l : List ℚ) (a : ℚ) :
    peakOfInits (l ++ [a]) = max (peakOfInits l) (l.sum + a) := by
  unfold peakOfInits
  rw [inits_concat, List.map_append, List.foldl_append]
  simp

theorem specMaxDrawdown_concat (l : List ℚ) (a : ℚ) :
    specMaxDrawdown (l ++ [a]) =
      max (specMaxDrawdown l) (peakOfInits (l ++ [a]) - (l.sum + a)) := by
  unfold specMaxDrawdown
  rw [inits_concat, List.map_append, List.foldl_append]
  simp [peakOfInits]

theorem ddFold_concat (l : List ℚ) (a : ℚ) :
    ddFold (l ++ [a]) = ddStep (ddFold l) a := by
  unfold ddFold
  rw [List.foldl_append]
  rfl

/-- The code's running fold computes exactly (cumulative PnL, running
peak over initial segments, max drawdown over initial segments). -/
theorem ddFold_eq (l : List ℚ) :
    ddFold l = (l.sum, peakOfInits l, specMaxDrawdown l) := by
  induction l using List.reverseRecOn with
  | nil => simp [ddFold, peakOfInits, specMaxDrawdown]
  | append_singleton l a ih =>
    rw [ddFold_concat, ih, specMaxDrawdown_concat, peakOfInits_concat]
    simp [ddStep, List.sum_append]

theorem riskMetricsStep_mapped (l : List ℚ) (st : ℚ × ℚ × ℚ)
    (h : ∀ p ∈ l, p ≠ 0) :
    (l.map some).foldl riskMetricsStep st = l.foldl ddStep st := by
  induction l generalizing st with
  | nil => rfl
  | cons b t ih =>
    have hb : b ≠ 0 := h b (List.mem_cons_self b t)
    simp only [List.map_cons, List.foldl_cons, riskMetricsStep, if_neg hb]
    exact ih _ (fun p hp => h p (List.mem_cons_of_mem b hp))

/-- C8: over any sequence of nonzero PnL values (in the order the trade
query returns them, which the spec takes to be chronological), the
drawdown fold of `_calculate_risk_metrics` computes the maximum over all
initial segments of (running peak minus cumulative PnL), with the peak
running from 0; and on the fixture sequence
[+100, -30, +10, -200, +50] the computed `max_drawdown` is 220. -/
theorem calculate_risk_metrics_drawdown_spec :
    (∀ pnls : List ℚ, (∀ p ∈ pnls, p ≠ 0) →
      max_drawdown (pnls.map some) = specMaxDrawdown pnls) ∧
    max_drawdown [some 100, some (-30), some 10, some (-200), some 50] = 220 := by
  constructor
  · intro pnls h
    unfold max_drawdown calculate_risk_metrics_drawdown
    rw [riskMetricsStep_mapped pnls (0, 0, 0) h]
    rw [show pnls.foldl ddStep (0, 0, 0) = ddFold pnls from rfl, ddFold_eq]
  · norm_num [max_drawdown, calculate_risk_metrics_drawdown, riskMetricsStep,
      ddStep, max_def]

/-- Witness for C8: the fixture sequence satisfies the nonzero
hypothesis, and the fold agrees with the spec-side closed form there. -/
theorem calculate_risk_metrics_drawdown_spec_witness :
    max_drawdown ([100, -30, 10, -200, 50].map some) =
      specMaxDrawdown [100, -30, 10, -200, 50] :=
  calculate_risk_metrics_drawdown_spec.1 [100, -30, 10, -200, 50] (by decide)

/-- C9: the PnL bug.  Because `_calculate_pnl` compares the
`TradeDirection` enum member against the string literal "LONG" (a
comparison that is always false in Python), a long position entered at
50000 for quantity 0.1 and exited at 51000 gets PnL -100 — the short
formula — instead of the (51000 - 50000) * 0.1 = 100 required by the
spec. -/
theorem calculate_pnl_long_gets_short_formula :
    calculate_pnl scenarioCTrade (.num 51000) = -100 ∧
    calculate_pnl scenarioCTrade (.num 51000) ≠ ((51000 : ℚ) - 50000) * (1/10) := by
  constructor
  · norm_num [calculate_pnl, scenarioCTrade, pyFloat, direction_eq_LONG]
  · norm_num [calculate_pnl, scenarioCTrade, pyFloat, direction_eq_LONG]

/-- C5: a fill confirmation never transitions the Position to the
filled state at all.  `update_trade_status` fetches the trade through
the legacy `db.query(...)` API, which does not exist on the
`AsyncSession` yielded by `get_db`, so every call — in particular one
whose status message reports "FILLED" — raises `AttributeError`
(re-raised by the method's handler) before any mutation: no status
change, no exit fields, no commit, for every trade id, message and
time.  (The unreachable mutation block, `update_trade_fields`, would
moreover have set `exit_time`/`exit_price`/`pnl` on "FILLED", closing
the position rather than keeping it open.) -/
theorem update_trade_status_fill_never_transitions :
    (∀ (trade_id : String) (msg : StatusMsg) (now : ℕ),
      update_trade_status trade_id msg now = .error .attributeError) ∧
    (∀ (trade_id : String) (msg : StatusMsg) (now : ℕ)
        (r : Option TradeRec),
      update_trade_status trade_id msg now ≠ .ok r) := by
  constructor
  · intro trade_id msg now
    rfl
  · intro trade_id msg now r h
    rw [show update_trade_status trade_id msg now = .error .attributeError
      from rfl] at h
    exact Except.noConfusion h

theorem le_foldl_max (l : List ℚ) (a : ℚ) : a ≤ l.foldl max a := by
  induction l generalizing a with
  | nil => exact le_refl a
  | cons b t ih => exact le_trans (le_max_left a b) (ih (max a b))

theorem mem_le_foldl_max {x : ℚ} {l : List ℚ} (h : x ∈ l) (a : ℚ) :
    x ≤ l.foldl max a := by
  induction l generalizing a with
  | nil => cases h
  | cons b t ih =>
    rcases List.mem_cons.mp h with rfl | h'
    · exact le_trans (le_max_right a x) (le_foldl_max t (max a x))
    · exact ih h' (max a b)

theorem sum_le_peakOfInits (l : List ℚ) : l.sum ≤ peakOfInits l := by
  unfold peakOfInits
  exact mem_le_foldl_max
    (List.mem_map_of_mem List.sum ((List.mem_inits l l).mpr ⟨[], List.append_nil l⟩)) 0

theorem drawdown_le_specMaxDrawdown (l : List ℚ) :
    peakOfInits l - l.sum ≤ specMaxDrawdown l := by
  unfold specMaxDrawdown
  exact mem_le_foldl_max
    (List.mem_map_of_mem _ ((List.mem_inits l l).mpr ⟨[], List.append_nil l⟩)) 0

theorem ddStep_zero (l : List ℚ) : ddStep (ddFold l) 0 = ddFold l := by
  rw [ddFold_eq]
  have h1 := sum_le_peakOfInits l
  have h2 := drawdown_le_specMaxDrawdown l
  simp [ddStep, max_eq_left h1, max_eq_left h2]

/-- C10: `_calculate_pnl` never raises.  Whenever any of `entry_price`,
`quantity` or the given exit price fails numeric conversion, it returns
0 instead of propagating the error; and a PnL of 0 fed through the
drawdown accumulator of `_calculate_risk_metrics` leaves the cumulative
PnL, the running peak and the max drawdown unchanged (the code's
`if trade.pnl:` guard skips zeros, which by this identity is
indistinguishable from folding the zero through). -/
theorem calculate_pnl_error_fallback :
    (∀ (t : TradeRec) (x : PyVal),
      t.entry_price = PyVal.nonnum ∨ t.quantity = PyVal.nonnum ∨ x = PyVal.nonnum →
      calculate_pnl t x = 0) ∧
    (∀ l : List ℚ, ddStep (ddFold l) 0 = ddFold l) := by
  refine ⟨?_, ddStep_zero⟩
  intro t x h
  rcases h with h | h | h <;>
    cases hx : x <;> cases he : t.entry_price <;> cases hq : t.quantity <;>
      simp_all [calculate_pnl, pyFloat]

/-- Witness for C10 at a concrete trade with a non-numeric entry price. -/
theorem calculate_pnl_error_fallback_witness :
    calculate_pnl badEntryTrade (.num 51000) = 0 :=
  calculate_pnl_error_fallback.1 badEntryTrade (.num 51000) (Or.inl rfl)

/-- Counterexample to C3: in an execution where validation, balance,
sizing and order placement all succeed but persisting the trade fails,
`execute_trade` returns the failure signal `None`, yet the placed order
HAS been registered in the active-order index — the index is not left
unchanged. -/
theorem execute_trade_partial_state_cex :
    execute_trade storeFailEnv [] = (none, [("ord1", fixtureOrder1)]) ∧
    (execute_trade storeFailEnv []).2 ≠ ([] : ActiveOrders) := by
  constructor
  · rfl
  · intro h
    rw [show execute_trade storeFailEnv [] = (none, [("ord1", fixtureOrder1)])
      from rfl] at h
    simp at h

/-- C3 amended: a failure at validation, balance fetch, sizing or order
placement makes `execute_trade` return `None` with the active-order
index unchanged; but a failure while persisting the trade or updating
risk metrics, after a successful placement, returns `None` with the
placed order still registered in the index. -/
theorem execute_trade_amended (env : ExecEnv) (acts : ActiveOrders) :
    (failsBeforeRegistration env → execute_trade env acts = (none, acts)) ∧
    (∀ (o : Order) (b sz : ℚ),
      env.validate = true → env.balance = .ok b → env.size = .ok sz →
      env.place = some o →
      (∃ e, env.store = .error e) ∨
        (env.store = .ok () ∧ ∃ e, env.metrics = .error e) →
      execute_trade env acts = (none, setOrder acts o.order_id o)) := by
  constructor
  · intro h
    unfold execute_trade
    rcases h with h | ⟨e, h⟩ | ⟨e, h⟩ | h
    · simp [h]
    · cases hv : env.validate <;> simp [hv, h]
    · cases hv : env.validate <;> cases hb : env.balance <;> simp [hv, h, hb]
    · cases hv : env.validate <;> cases hb : env.balance <;>
        cases hs : env.size <;> simp [hv, hb, hs, h]
  · intro o b sz hv hb hs hp hfail
    unfold execute_trade
    rw [hv, hb, hs, hp]
    rcases hfail with ⟨e, he⟩ | ⟨hok, e, he⟩
    · simp [he]
    · simp [hok, he]

/-- Witness for C3's amended theorem: an execution rejected by the risk
manager leaves the index unchanged, and an execution failing at the
persistence step leaves the placed order registered. -/
theorem execute_trade_amended_witness :
    execute_trade { storeFailEnv with validate := false } [] = (none, []) ∧
    execute_trade storeFailEnv [] =
      (none, setOrder [] fixtureOrder1.order_id fixtureOrder1) :=
  ⟨(execute_trade_amended { storeFailEnv with validate := false } []).1
      (Or.inl rfl),
   (execute_trade_amended storeFailEnv []).2 fixtureOrder1 10000 200
      rfl rfl rfl rfl (Or.inl ⟨.dbError, rfl⟩)⟩

/-- Counterexample to C4: with two tracked orders, where polling reports
the first as "FILLED" (whose handling raises, `_update_position` being
undefined on `TradeExecutor`), the cycle's single `try/except` catches
the exception outside the `for` loop, so the second order is never
polled in that cycle — the failure is not isolated to the one order. -/
theorem manage_cycle_abort_cex :
    manage_open_positions_cycle fixtureStatus fixtureOrders = ⟨["ord1"], true⟩ ∧
    "ord2" ∉ (manage_open_positions_cycle fixtureStatus fixtureOrders).polled := by
  constructor
  · rfl
  · rw [show manage_open_positions_cycle fixtureStatus fixtureOrders =
      ⟨["ord1"], true⟩ from rfl]
    simp

/-- C4 amended: in each reconciliation cycle, orders are polled in index
order until the first one whose handling raises; that exception aborts
the remainder of the cycle (later orders are not polled this round) but
is caught by the cycle's handler, so the loop survives and re-polls all
tracked orders in the next cycle.  When no order's handling raises,
every tracked order is polled and the cycle completes normally. -/
theorem manage_cycle_amended (statusOf : String → Option String) :
    (∀ acts : ActiveOrders,
      (∀ p ∈ acts, handlerRaises (statusOf p.1) = false) →
      manage_open_positions_cycle statusOf acts = ⟨acts.map Prod.fst, false⟩) ∧
    (∀ (front : ActiveOrders) (oid : String) (o : Order) (rest : ActiveOrders),
      (∀ p ∈ front, handlerRaises (statusOf p.1) = false) →
      handlerRaises (statusOf oid) = true →
      manage_open_positions_cycle statusOf (front ++ (oid, o) :: rest) =
        ⟨front.map Prod.fst ++ [oid], true⟩) := by
  constructor
  · intro acts h
    induction acts with
    | nil => rfl
    | cons p t ih =>
      have hp : handlerRaises (statusOf p.1) = false :=
        h p (List.mem_cons_self p t)
      have ht := ih (fun q hq => h q (List.mem_cons_of_mem p hq))
      obtain ⟨k, o⟩ := p
      simp only [manage_open_positions_cycle] at ht ⊢
      rw [hp] at *
      simp [ht]
  · intro front oid o rest hfront hraise
    induction front with
    | nil =>
      simp only [List.nil_append, manage_open_positions_cycle, hraise]
      simp
    | cons p t ih =>
      have hp : handlerRaises (statusOf p.1) = false :=
        hfront p (List.mem_cons_self p t)
      have ht := ih (fun q hq => hfront q (List.mem_cons_of_mem p hq))
      obtain ⟨k, o'⟩ := p
      simp only [List.cons_append, manage_open_positions_cycle] at ht ⊢
      rw [hp] at *
      simp [ht]

/-- Witness for C4's amended theorem: a cycle over the fixture with only
the healthy order polls it and completes, and a cycle where the first
order's handling raises polls only that order. -/
theorem manage_cycle_amended_witness :
    manage_open_positions_cycle fixtureStatus [("ord2", fixtureOrder2)] =
      ⟨[("ord2", fixtureOrder2)].map Prod.fst, false⟩ ∧
    manage_open_positions_cycle fixtureStatus
        ([] ++ ("ord1", fixtureOrder1) :: [("ord2", fixtureOrder2)]) =
      ⟨([] : ActiveOrders).map Prod.fst ++ ["ord1"], true⟩ :=
  ⟨(manage_cycle_amended fixtureStatus).1 [("ord2", fixtureOrder2)] (by decide),
   (manage_cycle_amended fixtureStatus).2 [] "ord1" fixtureOrder1
      [("ord2", fixtureOrder2)] (by decide) (by decide)⟩

/-- C6: in mock mode nothing reaches the cache or the pub/sub topic.
`_start_mock_data_stream` hands every generated record to
`process_market_data` with exchange identifier "mock", but
`normalize_market_data` has no branch for "mock" and returns `None`, so
every record is silently dropped: no cache write, no publish, no store —
for any trading pair, any generated payload, and any full iteration. -/
theorem mock_data_never_cached_or_published :
    (∀ pair msg, process_market_data "mock" pair msg = []) ∧
    (∀ pairs gen, start_mock_data_stream_iteration pairs gen = []) ∧
    (∀ pair nowMs ro rh rl rc rv,
      normalize_market_data "mock"
        (generate_mock_data pair nowMs ro rh rl rc rv) = none) := by
  have hnorm : ∀ msg, normalize_market_data "mock" msg = none := by
    intro msg
    unfold normalize_market_data
    rw [if_neg (by decide), if_neg (by decide)]
  have hproc : ∀ pair msg, process_market_data "mock" pair msg = [] := by
    intro pair msg
    unfold process_market_data
    rw [hnorm]
  refine ⟨hproc, ?_, fun pair nowMs ro rh rl rc rv => hnorm _⟩
  intro pairs gen
  unfold start_mock_data_stream_iteration
  induction pairs with
  | nil => rfl
  | cons p t ih => simp [hproc, ih]

end AutoTrader
